import Mathlib

/-!
Shallow embedding of the aws-cost-radar repository (src/main.py,
src/services/RDS_cost_tool.py, src/services/EC2_cost_tool.py,
src/services/KMS_cost_tool.py, src/services/NAT_GW_cost_tool.py,
src/core/session.py, src/core/logging.py, src/utils/config.py).

Provider responses (boto3 pagination results) are modelled as plain lists of
records carrying exactly the fields the source reads; a fallible provider call
is modelled as an Except value (error = the raised ClientError/Exception).
Python floats are modelled as rationals; datetimes as rational epoch seconds.
Logging and console rendering are side effects with no bearing on the claims
and are dropped; where the source builds tables or summary logs, the embedding
returns the tabulated rows as data.
-/

namespace Radar

/-- Value of the first tag whose key is "Name", else the sentinel "N/A".
Mirrors the identical tag-search loop in EC2_cost_tool.py (several sub-scans)
and NAT_GW_cost_tool.py. -/
def findNameTag (tags : List (String × String)) : String :=
  match tags.find? (fun kv => kv.1 == "Name") with
  | some kv => kv.2
  | none => "N/A"

/-- Membership of a possibly missing (Python None) identifier in a list of
identifiers. Python evaluates (None in s) as False for a set of strings, so a
missing identifier is a member of no list. -/
def optMem (x : Option String) (s : List String) : Bool :=
  match x with
  | none => false
  | some v => s.contains v

end Radar

namespace RDS

/-- One record of a describe_db_instances page: the fields RDSCostAuditor
reads (RDS_cost_tool.py, scan_db_instances). Fields read with a .get default
carry that default here. -/
structure InstanceRec where
  db_id : String
  status : String
  instance_class : String := "N/A"
  engine : String := "N/A"
  allocated_storage : Nat := 0
  storage_type : String := "N/A"
  iops : Nat := 0
  multi_az : Bool := false
  encrypted : Bool := false
deriving DecidableEq

/-- One record of a describe_db_clusters page (scan_db_clusters). -/
structure ClusterRec where
  cluster_id : String
  status : String
  engine : String := "N/A"
  allocated_storage : Nat := 0
  encrypted : Bool := false
  multi_az : Bool := false
  member_count : Nat := 0
deriving DecidableEq

/-- One record of a describe_db_snapshots or describe_db_cluster_snapshots
page. source_id is the DBInstanceIdentifier (resp. DBClusterIdentifier) read
with .get and so possibly missing. -/
structure SnapshotRec where
  snap_id : String
  source_id : Option String
  allocated_storage : Nat := 0
  engine : String := "N/A"
  status : String := "N/A"
  encrypted : Bool := false
deriving DecidableEq

/-- The CostItem dataclass of RDS_cost_tool.py. additional_info holds only
strings echoed into logs and reports and is not consulted by any computation,
so it is omitted here. -/
structure CostItem where
  resource_type : String
  resource_id : String
  status : String
  size_gb : ℚ := 0
  instance_class : String := ""
  engine : String := ""
  multi_az : Bool := false
  encrypted : Bool := false
  storage_type : String := ""
  iops : Nat := 0
  is_orphan : Bool := false
deriving DecidableEq

/-- The RDSConfig dataclass of RDS_cost_tool.py: exactly these five fields. -/
structure RDSConfig where
  region : String := "us-east-1"
  include_clusters : Bool := true
  include_snapshots : Bool := true
  include_reserved : Bool := true
  include_proxies : Bool := true
deriving DecidableEq

/-- CostItem built for one DB instance (scan_db_instances loop body). -/
def instanceCostItem (i : InstanceRec) : CostItem :=
  { resource_type := "DB Instance"
    resource_id := i.db_id
    status := i.status
    size_gb := (i.allocated_storage : ℚ)
    instance_class := i.instance_class
    engine := i.engine
    multi_az := i.multi_az
    encrypted := i.encrypted
    storage_type := i.storage_type
    iops := i.iops }

/-- Cost items appended by scan_db_instances, in page order. -/
def scan_db_instances (xs : List InstanceRec) : List CostItem :=
  xs.map instanceCostItem

/-- The active_instances set accumulated by scan_db_instances. -/
def activeInstanceIds (xs : List InstanceRec) : List String :=
  xs.map (fun i => i.db_id)

/-- CostItem built for one Aurora cluster (scan_db_clusters loop body). -/
def clusterCostItem (c : ClusterRec) : CostItem :=
  { resource_type := "Aurora Cluster"
    resource_id := c.cluster_id
    status := c.status
    size_gb := (c.allocated_storage : ℚ)
    engine := c.engine
    encrypted := c.encrypted
    multi_az := c.multi_az }

/-- Cost items appended by scan_db_clusters, in page order. -/
def scan_db_clusters (xs : List ClusterRec) : List CostItem :=
  xs.map clusterCostItem

/-- The active_clusters set accumulated by scan_db_clusters. -/
def activeClusterIds (xs : List ClusterRec) : List String :=
  xs.map (fun c => c.cluster_id)

/-- CostItem built for one DB snapshot (scan_snapshots inner loop): orphan
exactly when the declared source instance id is not in safe_list, a missing
source id counting as not-in. -/
def snapshotCostItem (safe_list : List String) (snap_type : String)
    (s : SnapshotRec) : CostItem :=
  { resource_type := "Snapshot (" ++ snap_type ++ ")"
    resource_id := s.snap_id
    status := s.status
    size_gb := (s.allocated_storage : ℚ)
    engine := s.engine
    encrypted := s.encrypted
    is_orphan := !(Radar.optMem s.source_id safe_list) }

/-- scan_snapshots: safe_list is the union of active instances and active
clusters; the manual pass runs before the automated pass. -/
def scan_snapshots (active_instances active_clusters : List String)
    (manualSnaps automatedSnaps : List SnapshotRec) : List CostItem :=
  let safe_list := active_instances ++ active_clusters
  manualSnaps.map (snapshotCostItem safe_list "manual") ++
    automatedSnaps.map (snapshotCostItem safe_list "automated")

/-- CostItem built for one cluster snapshot (scan_cluster_snapshots inner
loop): the code consults only active_clusters, not the union. -/
def clusterSnapshotCostItem (active_clusters : List String) (snap_type : String)
    (s : SnapshotRec) : CostItem :=
  { resource_type := "Cluster Snapshot (" ++ snap_type ++ ")"
    resource_id := s.snap_id
    status := s.status
    size_gb := (s.allocated_storage : ℚ)
    engine := s.engine
    encrypted := s.encrypted
    is_orphan := !(Radar.optMem s.source_id active_clusters) }

/-- scan_cluster_snapshots over the manual then automated passes. -/
def scan_cluster_snapshots (active_clusters : List String)
    (manualSnaps automatedSnaps : List SnapshotRec) : List CostItem :=
  manualSnaps.map (clusterSnapshotCostItem active_clusters "manual") ++
    automatedSnaps.map (clusterSnapshotCostItem active_clusters "automated")

/-- Provider responses consumed by one run_audit invocation, page-flattened. -/
structure RDSResponses where
  dbInstances : List InstanceRec
  dbClusters : List ClusterRec
  manualSnaps : List SnapshotRec
  automatedSnaps : List SnapshotRec
  manualClusterSnaps : List SnapshotRec
  automatedClusterSnaps : List SnapshotRec
deriving DecidableEq

/-- Cost items accumulated by run_audit in scan order: instances, clusters,
snapshots, cluster snapshots. scan_db_clusters returns early (adding nothing
and leaving active_clusters empty) when include_clusters is off, and the
snapshot scans return early when their include flags are off, exactly as the
source methods do. Reserved instances and proxies add items with no orphan
flag and are independent of the claims; they are elided here. -/
def audit_cost_items (cfg : RDSConfig) (env : RDSResponses) : List CostItem :=
  let ai := activeInstanceIds env.dbInstances
  let ac := if cfg.include_clusters then activeClusterIds env.dbClusters else []
  scan_db_instances env.dbInstances ++
    (if cfg.include_clusters then scan_db_clusters env.dbClusters else []) ++
    (if cfg.include_snapshots then
      scan_snapshots ai ac env.manualSnaps env.automatedSnaps else []) ++
    (if cfg.include_clusters && cfg.include_snapshots then
      scan_cluster_snapshots ac env.manualClusterSnaps env.automatedClusterSnaps
     else [])

/-- One per-type row of the generate_summary_report output. -/
structure TypeSummaryRow where
  resource_type : String
  count : Nat
  total_size : ℚ
  orphan_count : Nat
  orphan_size : ℚ
deriving DecidableEq

/-- Distinct resource types of the collected items, sorted lexicographically:
generate_summary_report iterates sorted(by_type.keys()). -/
def typeKeysSorted (items : List CostItem) : List String :=
  List.insertionSort (· ≤ ·) (items.map (fun i => i.resource_type)).dedup

/-- Per-type aggregates computed by generate_summary_report: grouping by
defaultdict-append preserves input order, so the group for t is the filter. -/
def summaryRow (items : List CostItem) (t : String) : TypeSummaryRow :=
  let group := items.filter (fun i => i.resource_type == t)
  { resource_type := t
    count := group.length
    total_size := (group.map (fun i => i.size_gb)).sum
    orphan_count := (group.filter (fun i => i.is_orphan)).length
    orphan_size := ((group.filter (fun i => i.is_orphan)).map
      (fun i => i.size_gb)).sum }

/-- Rows logged by generate_summary_report, one per distinct resource type in
lexicographic key order. -/
def generate_summary_report (items : List CostItem) : List TypeSummaryRow :=
  (typeKeysSorted items).map (summaryRow items)

end RDS

namespace EC2

/-- Value stored in a finding dict emitted by ResourceInfo.to_dict: every
field the EC2 sub-scans set is a string, except meta which is a string-valued
dict. -/
inductive JVal
  | s (v : String)
  | m (v : List (String × String))
deriving DecidableEq

/-- The ResourceInfo dataclass of EC2_cost_tool.py. The sub-scans always pass
strings (with "N/A" sentinels) for the Optional fields. -/
structure ResourceInfo where
  service : String
  resource_id : String
  name : String
  region : String
  size : String
  create_time : String
  status : String
  meta : List (String × String)
deriving DecidableEq

/-- ResourceInfo.to_dict: the exact key set and order of the dict built in
EC2_cost_tool.py. -/
def ResourceInfo.to_dict (r : ResourceInfo) : List (String × JVal) :=
  [("service", JVal.s r.service),
   ("resource_id", JVal.s r.resource_id),
   ("name", JVal.s r.name),
   ("region", JVal.s r.region),
   ("size", JVal.s r.size),
   ("create_time", JVal.s r.create_time),
   ("status", JVal.s r.status),
   ("meta", JVal.m r.meta)]

/-- Abstraction of datetime.strftime("%Y-%m-%d %H:%M:%S") applied to a
creation timestamp held as rational epoch seconds: an opaque-but-computable
rendering; only the none branch ("N/A") matters to the claims. -/
def fmtTime (t : ℚ) : String :=
  "t" ++ toString t.num ++ "/" ++ toString t.den

/-- Python idiom used by every EC2/NAT sub-scan for optional timestamps:
value.strftime(...) if value else "N/A". -/
def fmtOptTime (t : Option ℚ) : String :=
  match t with
  | some v => fmtTime v
  | none => "N/A"

/-- One instance record of a describe_instances page (fields _scan_instances
reads). -/
structure InstanceRec where
  instance_id : String
  tags : List (String × String) := []
  instance_type : String
  launch_time : Option ℚ := none
  state_name : String
  platform_details : Option String := none
deriving DecidableEq

/-- One volume record of a describe_volumes page (fields read by
_scan_volumes and _scan_orphan_volumes). -/
structure VolumeRec where
  volume_id : String
  tags : List (String × String) := []
  size : Nat
  volume_type : String
  create_time : Option ℚ := none
  state : String
  attachments : List (Option String) := []
deriving DecidableEq

/-- One snapshot record of a describe_snapshots page (fields _scan_snapshots
reads). -/
structure SnapRec where
  snapshot_id : String
  tags : List (String × String) := []
  volume_size : Nat
  start_time : Option ℚ := none
  state : Option String := none
  description : Option String := none
deriving DecidableEq

/-- One address record of describe_addresses (fields _scan_eips reads). -/
structure AddrRec where
  public_ip : String
  tags : List (String × String) := []
  attached_instance : Option String := none
  allocation_id : Option String := none
deriving DecidableEq

/-- Finding built for one instance (_scan_instances loop body). -/
def instanceFinding (region : String) (i : InstanceRec) : ResourceInfo :=
  { service := "EC2"
    resource_id := i.instance_id
    name := Radar.findNameTag i.tags
    region := region
    size := i.instance_type
    create_time := fmtOptTime i.launch_time
    status := i.state_name
    meta := [("platform", i.platform_details.getD "Linux")] }

/-- Findings of the instances sub-scan over all pages. -/
def scanInstances (region : String) (xs : List InstanceRec) : List ResourceInfo :=
  xs.map (instanceFinding region)

/-- Finding built for one in-use volume (_scan_volumes loop body). -/
def volumeFinding (region : String) (v : VolumeRec) : ResourceInfo :=
  { service := "EBS Volume"
    resource_id := v.volume_id
    name := Radar.findNameTag v.tags
    region := region
    size := toString v.size ++ " GB (" ++ v.volume_type ++ ")"
    create_time := fmtOptTime v.create_time
    status := v.state
    meta := [("attached_to",
      match v.attachments.head? with
      | some a => a.getD "N/A"
      | none => "N/A")] }

/-- Findings of the in-use-volumes sub-scan (the provider query carries the
status = in-use filter, so xs are the in-use volumes). -/
def scanVolumes (region : String) (xs : List VolumeRec) : List ResourceInfo :=
  xs.map (volumeFinding region)

/-- Finding built for one available volume (_scan_orphan_volumes loop body):
service and status labels are fixed strings. -/
def orphanVolumeFinding (region : String) (v : VolumeRec) : ResourceInfo :=
  { service := "Orphan Volume"
    resource_id := v.volume_id
    name := Radar.findNameTag v.tags
    region := region
    size := toString v.size ++ " GB (" ++ v.volume_type ++ ")"
    create_time := fmtOptTime v.create_time
    status := "Available (Not Attached)"
    meta := [("type", v.volume_type)] }

/-- Findings of the orphan-volumes sub-scan (the provider query carries the
status = available filter, so xs are the available volumes). -/
def scanOrphanVolumes (region : String) (xs : List VolumeRec) : List ResourceInfo :=
  xs.map (orphanVolumeFinding region)

/-- Finding built for one snapshot (_scan_snapshots loop body): no orphan
classification of any kind, and no consultation of instance or volume state. -/
def snapshotFinding (region : String) (s : SnapRec) : ResourceInfo :=
  { service := "Snapshot"
    resource_id := s.snapshot_id
    name := Radar.findNameTag s.tags
    region := region
    size := toString s.volume_size ++ " GB"
    create_time := fmtOptTime s.start_time
    status := s.state.getD "N/A"
    meta := [("description", s.description.getD "N/A")] }

/-- Findings of the snapshots sub-scan over all pages (OwnerIds = self). -/
def scanSnapshots (region : String) (xs : List SnapRec) : List ResourceInfo :=
  xs.map (snapshotFinding region)

/-- Finding built for one elastic IP (_scan_eips loop body). -/
def eipFinding (region : String) (a : AddrRec) : ResourceInfo :=
  { service := "Elastic IP"
    resource_id := a.public_ip
    name := Radar.findNameTag a.tags
    region := region
    size := "N/A"
    create_time := "N/A"
    status := match a.attached_instance with
      | some _ => "Attached"
      | none => "Detached"
    meta := [("attached_to", a.attached_instance.getD "N/A"),
             ("allocation_id", a.allocation_id.getD "N/A")] }

/-- Findings of the addresses sub-scan. -/
def scanEips (region : String) (xs : List AddrRec) : List ResourceInfo :=
  xs.map (eipFinding region)

/-- Result of draining one paginated sub-scan query: the records that were
delivered and fully processed before the query raised, if it raised at all.
A drain that completed has err = none and recs = every record of every page;
a query that raised mid-pagination has err = some e and recs = the records
processed before the raise; one that raised on its first call has an empty
recs. This keeps the partial-prefix case the source exhibits: the try of each
sub-scan wraps the whole append loop and the method returns the findings list
accumulated so far after the except. -/
structure SubScanResp (α : Type) where
  recs : List α := []
  err : Option String := none

/-- Provider responses one EC2RegionCollector.collect call consumes for its
region. clientOk is false when get_client raises. -/
structure Env where
  clientOk : Bool := true
  instancesResp : SubScanResp InstanceRec := {}
  volumesInUseResp : SubScanResp VolumeRec := {}
  volumesAvailResp : SubScanResp VolumeRec := {}
  snapshotsResp : SubScanResp SnapRec := {}
  addressesResp : SubScanResp AddrRec := {}

/-- The try/except around one sub-scan loop: findings are appended per record
inside the try, the except clause only logs, and the findings accumulated
before any raise are returned. The contribution is therefore the findings
built from the records processed before the failure (empty only when the
query failed before yielding any record), and the logged error changes
nothing in the returned list. -/
def guarded {α : Type} (resp : SubScanResp α)
    (f : List α → List ResourceInfo) : List ResourceInfo :=
  f resp.recs

/-- EC2RegionCollector.collect: client failure returns []; otherwise the five
sub-scans run in order, each isolated by its own try/except. -/
def collect (env : Env) (region : String) : List ResourceInfo :=
  if env.clientOk then
    guarded env.instancesResp (scanInstances region) ++
      guarded env.volumesInUseResp (scanVolumes region) ++
      guarded env.volumesAvailResp (scanOrphanVolumes region) ++
      guarded env.snapshotsResp (scanSnapshots region) ++
      guarded env.addressesResp (scanEips region)
  else []

/-- One region record of describe_regions (fields get_regions reads). -/
structure RegionRec where
  region_name : String
  opt_in_status : String
deriving DecidableEq

/-- ResourceInventoryManager.get_regions: filters to opted-in regions and, on
any error, falls back to the single region us-east-1. -/
def get_regions (resp : Except String (List RegionRec)) : List String :=
  match resp with
  | Except.ok rs =>
    (rs.filter (fun r =>
      r.opt_in_status == "opt-in-not-required" ||
        r.opt_in_status == "opted-in")).map (fun r => r.region_name)
  | Except.error _ => ["us-east-1"]

/-- ResourceInventoryManager.display_results summary table: rows (service,
count) for the distinct services, iterated via sorted(services.items()). -/
def displaySummaryRows (findings : List ResourceInfo) :
    List (String × Nat) :=
  (List.insertionSort (· ≤ ·) (findings.map (fun f => f.service)).dedup).map
    (fun s => (s, (findings.filter (fun f => f.service == s)).length))

end EC2

namespace Pool

/-- The worker-pool pattern shared by ResourceInventoryManager.run (EC2),
NATGatewayInventoryManager.run and KMSCollector.run: one task per region; a
task that raises is caught at the pool boundary, logged, and contributes
nothing to the output; results of successful tasks are extended onto one flat
list. The completion order of the thread pool is nondeterministic; this embedding
fixes submission order, which the aggregation claims quantify over by
permutation. -/
def runPool {α : Type} (collectTask : String → Except String (List α))
    (regions : List String) : List α :=
  regions.foldl
    (fun acc r =>
      match collectTask r with
      | Except.ok fs => acc ++ fs
      | Except.error _ => acc) []

end Pool

namespace KMS

/-- The KeyMetadata fields describe_key_meta extracts (KMS_cost_tool.py),
after the KeySpec-or-CustomerMasterKeySpec-or-UNKNOWN extraction. -/
structure KeyMeta where
  key_state : String := "UNKNOWN"
  key_usage : String := "UNKNOWN"
  key_manager : String := "UNKNOWN"
  origin : String := "UNKNOWN"
  key_spec : String := "UNKNOWN"
deriving DecidableEq

/-- Meta dict returned by describe_key_meta when describe_key raises. -/
def errorMeta : KeyMeta :=
  { key_state := "ERROR"
    key_usage := "UNKNOWN"
    key_manager := "UNKNOWN"
    origin := "UNKNOWN"
    key_spec := "UNKNOWN" }

/-- KMSCollector.describe_key_meta: a ClientError is caught and replaced by
the ERROR/UNKNOWN meta dict. -/
def describe_key_meta (resp : Except String KeyMeta) : KeyMeta :=
  match resp with
  | Except.ok m => m
  | Except.error _ => errorMeta

/-- KMSCollector.get_rotation_status: the rotation flag, or None when the
query raises a ClientError. -/
def get_rotation_status (resp : Except String Bool) : Option Bool :=
  match resp with
  | Except.ok b => some b
  | Except.error _ => none

/-- KMSCollector.rotation_applicability: the four disqualifying tests in
source order, first match wins; the pair is (applicable, reason). -/
def rotation_applicability (m : KeyMeta) : Bool × String :=
  if m.key_manager == "AWS" then
    (false, "AWS_MANAGED")
  else if m.key_usage != "ENCRYPT_DECRYPT" then
    (false, "NOT_ENCRYPT_DECRYPT")
  else if m.origin == "EXTERNAL" then
    (false, "IMPORTED_KEY_MATERIAL")
  else if m.key_spec.startsWith "RSA_" || m.key_spec.startsWith "ECC_" ||
      m.key_spec.startsWith "HMAC_" then
    (false, "ASYMMETRIC_OR_HMAC")
  else
    (true, "APPLICABLE")

/-- The KMSFinding dataclass of KMS_cost_tool.py. Its alias field is spelled
alias_name here because alias is reserved in Lean. -/
structure KMSFinding where
  region : String
  key_id : String
  alias_name : String
  key_arn : String
  key_state : String := "UNKNOWN"
  key_usage : String := "UNKNOWN"
  key_spec : String := "UNKNOWN"
  key_manager : String := "UNKNOWN"
  origin : String := "UNKNOWN"
  rotation_reason : String := "N/A"
  rotation_enabled : Option Bool := none
deriving DecidableEq

/-- One list_aliases record (fields kms_alias reads). -/
structure AliasRec where
  alias_name : String
  target_key_id : Option String := none
deriving DecidableEq

/-- Python dict assignment: any earlier binding of the key is superseded. -/
def dictInsert (m : List (String × String)) (k v : String) :
    List (String × String) :=
  m.filter (fun kv => kv.1 != k) ++ [(k, v)]

/-- KMSCollector.kms_alias: alias_map[target] = name for every alias record
whose TargetKeyId and AliasName are both present and nonempty (Python
truthiness). -/
def kms_alias (pages : List AliasRec) : List (String × String) :=
  pages.foldl
    (fun m a =>
      match a.target_key_id with
      | some t => if t != "" && a.alias_name != "" then dictInsert m t a.alias_name else m
      | none => m) []

/-- One list_keys record together with the responses the per-key queries
(describe_key, get_key_rotation_status) would return for it. -/
structure KeyRec where
  key_id : String
  key_arn : String
  metaResp : Except String KeyMeta := Except.ok {}
  rotResp : Except String Bool := Except.error "unqueried"

/-- The scan_region loop body for one key: the returned Bool records whether
get_key_rotation_status was actually invoked. -/
def processKey (reg : String) (alias_map : List (String × String))
    (k : KeyRec) : KMSFinding × Bool :=
  let aliasVal := match alias_map.find? (fun kv => kv.1 == k.key_id) with
    | some kv => kv.2
    | none => "No Alias"
  let meta := describe_key_meta k.metaResp
  let ar := rotation_applicability meta
  if ar.1 then
    let rotation := get_rotation_status k.rotResp
    let rr := match rotation with
      | some true => "ENABLED"
      | some false => "DISABLED"
      | none => "UNKNOWN_OR_NO_PERMISSION"
    ({ region := reg
       key_id := k.key_id
       alias_name := aliasVal
       key_arn := k.key_arn
       key_state := meta.key_state
       key_usage := meta.key_usage
       key_spec := meta.key_spec
       key_manager := meta.key_manager
       origin := meta.origin
       rotation_reason := rr
       rotation_enabled := rotation }, true)
  else
    ({ region := reg
       key_id := k.key_id
       alias_name := aliasVal
       key_arn := k.key_arn
       key_state := meta.key_state
       key_usage := meta.key_usage
       key_spec := meta.key_spec
       key_manager := meta.key_manager
       origin := meta.origin
       rotation_reason := ar.2
       rotation_enabled := none }, false)

/-- Provider responses one KMSCollector.scan_region call consumes. -/
structure RegionEnv where
  aliasPages : Except String (List AliasRec) := Except.ok []
  keyPages : Except String (List KeyRec) := Except.ok []

/-- KMSCollector.scan_region: the alias-listing and key-listing sub-scans are
not wrapped in any try/except, so an error in either propagates out of
scan_region; only the per-key describe_key and rotation-status queries are
isolated (inside processKey). -/
def scan_region (env : RegionEnv) (reg : String) :
    Except String (List KMSFinding) :=
  match env.aliasPages with
  | Except.error e => Except.error e
  | Except.ok aliases =>
    match env.keyPages with
    | Except.error e => Except.error e
    | Except.ok keys =>
      Except.ok (keys.map (fun k => (processKey reg (kms_alias aliases) k).1))

/-- KMSCollector.get_regions: no opt-in filter and no try/except — a query
error propagates to the caller (KMSCollector.run), unlike the EC2 and NAT
resolvers. -/
def get_regions (resp : Except String (List EC2.RegionRec)) :
    Except String (List String) :=
  match resp with
  | Except.ok rs => Except.ok (rs.map (fun r => r.region_name))
  | Except.error e => Except.error e

/-- KMSCollector.run: the outer try/except returns the (empty) accumulated
list when get_regions raises; otherwise the worker-pool loop extends
all_results per completed region and drops failed regions. -/
def run (env : String → RegionEnv)
    (regionsResp : Except String (List EC2.RegionRec)) : List KMSFinding :=
  match get_regions regionsResp with
  | Except.error _ => []
  | Except.ok regions => Pool.runPool (fun r => scan_region (env r) r) regions

end KMS

namespace NAT

/-- Bytes in one gigabyte: 1024 cubed (NAT_GW_cost_tool.py, byte to GB
conversion). -/
def bytesPerGB : ℚ := 1024 ^ 3

/-- Python round(x, 2): round to two decimal places, ties to even. The source
applies it to a float; the rational model agrees at every non-tie input. -/
def roundHalfEven2 (x : ℚ) : ℚ :=
  let y := 100 * x
  let n := ⌊y⌋
  let f := y - (n : ℚ)
  let n2 :=
    if f < 1 / 2 then n
    else if 1 / 2 < f then n + 1
    else if n % 2 = 0 then n else n + 1
  (n2 : ℚ) / 100

/-- Contribution of one metric query to total_bytes: the sum of its Sum
datapoints, or zero when the query raised (inner try/except of
_get_traffic_metrics). -/
def metricContribution (resp : Except String (List ℚ)) : ℚ :=
  match resp with
  | Except.ok dps => dps.sum
  | Except.error _ => 0

/-- NATGatewayCollector._get_traffic_metrics: BytesInFromSource plus
BytesOutToDestination daily Sums over the window, converted to GB and rounded
to two decimals. -/
def get_traffic_metrics (bytesIn bytesOut : Except String (List ℚ)) : ℚ :=
  roundHalfEven2 ((metricContribution bytesIn + metricContribution bytesOut) / bytesPerGB)

/-- Traffic total as the spec sentence words it (claim C2): the datapoint sums
converted bytes to GB, with no rounding. Stated only for comparison with
get_traffic_metrics, which is what the code compares against the 1.0 GB
threshold. -/
def specTrafficGB (bytesIn bytesOut : Except String (List ℚ)) : ℚ :=
  (metricContribution bytesIn + metricContribution bytesOut) / bytesPerGB

/-- One describe_nat_gateways record (fields _scan_nat_gateways reads),
together with the CloudWatch responses its two metric queries would return.
Timestamps are rational epoch seconds. -/
structure NatGatewayRec where
  nat_id : String
  tags : List (String × String) := []
  addresses : List (Option String) := []
  state : String := "N/A"
  vpc_id : String := "N/A"
  subnet_id : String := "N/A"
  create_time : Option ℚ := none
  connectivity_type : String := "N/A"
  bytesInResp : Except String (List ℚ) := Except.ok []
  bytesOutResp : Except String (List ℚ) := Except.ok []

/-- The NATGatewayInfo dataclass; its meta dict holds exactly the keys
is_zombie and connectivity_type, flattened into two fields here. The
Optional traffic_gb and public_ip are always assigned by the scan. -/
structure NATGatewayInfo where
  service : String
  resource_id : String
  name : String
  region : String
  vpc_id : String
  subnet_id : String
  state : String
  create_time : String
  traffic_gb : ℚ
  public_ip : String
  meta_is_zombie : Bool
  meta_connectivity_type : String
deriving DecidableEq

/-- The _scan_nat_gateways loop body for one gateway at current time now
(rational epoch seconds): running hours are elapsed seconds over 3600, and
the zombie flag is set only when a creation time exists. -/
def scanNatGateway (now : ℚ) (region : String) (g : NatGatewayRec) :
    NATGatewayInfo :=
  let name := Radar.findNameTag g.tags
  let public_ip := match g.addresses.head? with
    | some a => a.getD "N/A"
    | none => "N/A"
  let create_time_str := EC2.fmtOptTime g.create_time
  let traffic_gb := get_traffic_metrics g.bytesInResp g.bytesOutResp
  let is_zombie := match g.create_time with
    | some t => decide ((now - t) / 3600 > 24 ∧ traffic_gb < 1)
    | none => false
  { service := "NAT Gateway"
    resource_id := g.nat_id
    name := name
    region := region
    vpc_id := g.vpc_id
    subnet_id := g.subnet_id
    state := g.state
    create_time := create_time_str
    traffic_gb := traffic_gb
    public_ip := public_ip
    meta_is_zombie := is_zombie
    meta_connectivity_type := g.connectivity_type }

/-- Findings of _scan_nat_gateways over the whole response. -/
def scan_nat_gateways (now : ℚ) (region : String)
    (gs : List NatGatewayRec) : List NATGatewayInfo :=
  gs.map (scanNatGateway now region)

/-- NATGatewayInventoryManager.get_regions: identical to the EC2 resolver,
including the us-east-1 fallback on error. -/
def get_regions (resp : Except String (List EC2.RegionRec)) : List String :=
  match resp with
  | Except.ok rs =>
    (rs.filter (fun r =>
      r.opt_in_status == "opt-in-not-required" ||
        r.opt_in_status == "opted-in")).map (fun r => r.region_name)
  | Except.error _ => ["us-east-1"]

end NAT

namespace Main

/-- Top-level names src/services/RDS_cost_tool.py defines (its classes; the
module defines no other public top-level bindings a from-import could name
besides its imports). -/
def rdsModuleNames : List String :=
  ["RDSConfig", "CostItem", "RDSCostAuditor"]

/-- Names src/main.py imports from services.RDS_cost_tool on its line 12. -/
def mainRdsImportNames : List String :=
  ["MultiRegionRDSCostAuditor", "RDSConfig"]

/-- Python from-import semantics: the statement succeeds only if the module
defines every imported name, else ImportError is raised at module load, before
any scan runs. -/
def importsResolve : Bool :=
  mainRdsImportNames.all (fun n => rdsModuleNames.contains n)

/-- Field names of the RDSConfig dataclass (its constructor keywords). -/
def rdsConfigFields : List String :=
  ["region", "include_clusters", "include_snapshots", "include_reserved",
   "include_proxies"]

/-- Keyword arguments run_rds passes when constructing RDSConfig. -/
def runRdsConfigKwargs : List String :=
  ["regions", "max_workers"]

/-- Python dataclass call semantics: the construction succeeds only if every
keyword argument names a declared field, else TypeError. -/
def rdsConfigCallOk : Bool :=
  runRdsConfigKwargs.all (fun n => rdsConfigFields.contains n)

end Main

/-- Unrolling lemma for the worker-pool fold: processing regions from any
accumulator appends the successful findings in order, dropping failed
regions. -/
theorem runPool_foldl_eq {α : Type} (task : String → Except String (List α))
    (regions : List String) : ∀ acc : List α,
    List.foldl
      (fun acc r =>
        match task r with
        | Except.ok fs => acc ++ fs
        | Except.error _ => acc) acc regions
      = acc ++ (regions.map (fun r =>
          match task r with
          | Except.ok fs => fs
          | Except.error _ => [])).flatten := by
  induction regions with
  | nil => intro acc; simp
  | cons r rs ih =>
    intro acc
    simp only [List.foldl_cons, List.map_cons, List.flatten_cons]
    cases htr : task r with
    | ok fs => rw [ih]; simp
    | error e => rw [ih]; simp

/-- Claim C4 is a code bug in the source: src/main.py imports
MultiRegionRDSCostAuditor from services.RDS_cost_tool, but that module
defines no such name, and run_rds constructs RDSConfig with keyword
arguments regions and max_workers that the dataclass does not declare. The
failed import alone aborts every invocation of main.py with ImportError
before any scan starts, so no ScanReport is ever produced and the RDS stage
never constructs its auditor. -/
theorem c4_main_rds_stage_broken :
    Main.importsResolve = false
    ∧ Main.rdsModuleNames.contains "MultiRegionRDSCostAuditor" = false
    ∧ Main.rdsConfigCallOk = false
    ∧ Main.rdsConfigFields.contains "regions" = false
    ∧ Main.rdsConfigFields.contains "max_workers" = false := by decide

/-- Claim C8 counterexample: the KMS region resolver propagates a query error
to its caller instead of returning the fallback sequence containing
us-east-1, refuting the claim that the resolver of every resource family fails
open. -/
theorem c8_counterexample :
    KMS.get_regions (Except.error "RequestExpired")
        = Except.error "RequestExpired"
    ∧ KMS.get_regions (Except.error "RequestExpired")
        ≠ Except.ok ["us-east-1"] :=
  ⟨rfl, fun h => Except.noConfusion h⟩

/-- Claim C8 (amended): the EC2 and NAT region resolvers query the provider,
filter to opted-in regions, and on error return the single-element fallback
list containing us-east-1; the KMS resolver does not filter and propagates a
query error to its caller, KMSCollector.run, whose outer handler then returns
an empty result list instead of scanning a fallback region. -/
theorem c8_region_resolver_amended (e : String) (rs : List EC2.RegionRec) :
    EC2.get_regions (Except.error e) = ["us-east-1"]
    ∧ NAT.get_regions (Except.error e) = ["us-east-1"]
    ∧ EC2.get_regions (Except.ok rs)
        = (rs.filter (fun r =>
            r.opt_in_status == "opt-in-not-required"
              || r.opt_in_status == "opted-in")).map (fun r => r.region_name)
    ∧ NAT.get_regions (Except.ok rs) = EC2.get_regions (Except.ok rs)
    ∧ KMS.get_regions (Except.error e) = Except.error e
    ∧ KMS.get_regions (Except.ok rs) = Except.ok (rs.map (fun r => r.region_name))
    ∧ KMS.run (fun _ => {}) (Except.error e) = [] :=
  ⟨rfl, rfl, rfl, rfl, rfl, rfl, rfl⟩

/-- Claim C3 counterexample: one region is requested and its task throws; the
pool output is empty, so it contains no entry at all for that region — in
particular not exactly one error-carrying outcome record — refuting the claim
that the output has exactly one RegionOutcome per resolved region. -/
theorem c3_counterexample :
    Pool.runPool
        (fun _ => (Except.error "RegionUnavailable" :
          Except String (List EC2.ResourceInfo)))
        ["eu-west-1"] = []
    ∧ (["eu-west-1"] : List String) ≠ [] :=
  ⟨rfl, by decide⟩

/-- Claim C3 (amended): the pool never terminates early on a failed
region-task — the error is caught at the pool boundary and later regions
still contribute — but it produces no per-region outcome records: the output
is the flat concatenation of the findings of the successful regions, and a region
whose task threw contributes nothing and appears nowhere in the output. -/
theorem c3_pool_amended {α : Type} (task : String → Except String (List α))
    (regions : List String) :
    Pool.runPool task regions
      = (regions.map (fun r =>
          match task r with
          | Except.ok fs => fs
          | Except.error _ => [])).flatten := by
  unfold Pool.runPool
  rw [runPool_foldl_eq]
  simp

/-- Claim C1 counterexample: a scan whose instance sub-scan recorded the id
db-a and whose cluster sub-scan recorded nothing. The cluster snapshot cs-1
declares source db-a, which is a member of the Active-Resource Index (the
union of the accumulated instance and cluster identifiers), yet
scan_cluster_snapshots flags it orphan because the code consults only the
active cluster identifiers. -/
theorem c1_counterexample :
    Radar.optMem (some "db-a")
        (RDS.activeInstanceIds [{ db_id := "db-a", status := "available" }]
          ++ RDS.activeClusterIds []) = true
    ∧ (RDS.scan_cluster_snapshots (RDS.activeClusterIds [])
          [{ snap_id := "cs-1", source_id := some "db-a" }] []).map
        (fun i => i.is_orphan) = [true] := by decide

/-- Claim C1 (amended): a snapshot finding is orphan exactly when its
declared source identifier is absent from the index the scan consults, a
missing source identifier always counting as orphan; for standard snapshots
that index is the union of the instance and cluster identifier sets built by
the earlier sub-scans of the same scan, while for cluster snapshots the code
consults the active cluster identifier set alone. -/
theorem c1_snapshot_orphan_amended (env : RDS.RDSResponses) (t : String)
    (s : RDS.SnapshotRec) :
    (s ∈ env.manualSnaps →
      RDS.snapshotCostItem
          (RDS.activeInstanceIds env.dbInstances
            ++ RDS.activeClusterIds env.dbClusters) "manual" s
        ∈ RDS.scan_snapshots (RDS.activeInstanceIds env.dbInstances)
            (RDS.activeClusterIds env.dbClusters)
            env.manualSnaps env.automatedSnaps)
    ∧ ((RDS.snapshotCostItem
          (RDS.activeInstanceIds env.dbInstances
            ++ RDS.activeClusterIds env.dbClusters) t s).is_orphan = true
        ↔ ∀ v, s.source_id = some v →
            v ∉ (RDS.activeInstanceIds env.dbInstances
              ++ RDS.activeClusterIds env.dbClusters))
    ∧ (s ∈ env.manualClusterSnaps →
      RDS.clusterSnapshotCostItem (RDS.activeClusterIds env.dbClusters)
          "manual" s
        ∈ RDS.scan_cluster_snapshots (RDS.activeClusterIds env.dbClusters)
            env.manualClusterSnaps env.automatedClusterSnaps)
    ∧ ((RDS.clusterSnapshotCostItem
          (RDS.activeClusterIds env.dbClusters) t s).is_orphan = true
        ↔ ∀ v, s.source_id = some v →
            v ∉ RDS.activeClusterIds env.dbClusters) := by
  refine ⟨?_, ?_, ?_, ?_⟩
  · intro hs
    unfold RDS.scan_snapshots
    exact List.mem_append_left _ (List.mem_map_of_mem _ hs)
  · cases hsrc : s.source_id with
    | none => simp [RDS.snapshotCostItem, Radar.optMem, hsrc]
    | some v => simp [RDS.snapshotCostItem, Radar.optMem, hsrc]
  · intro hs
    unfold RDS.scan_cluster_snapshots
    exact List.mem_append_left _ (List.mem_map_of_mem _ hs)
  · cases hsrc : s.source_id with
    | none => simp [RDS.clusterSnapshotCostItem, Radar.optMem, hsrc]
    | some v => simp [RDS.clusterSnapshotCostItem, Radar.optMem, hsrc]

/-- Witness for claim C1: a manual snapshot with no declared source, scanned
with one active instance and no clusters, is emitted into the scan output and
flagged orphan. -/
theorem c1_witness :
    RDS.snapshotCostItem
        (RDS.activeInstanceIds [{ db_id := "db-a", status := "available" }]
          ++ RDS.activeClusterIds []) "manual"
        { snap_id := "s-1", source_id := none }
      ∈ RDS.scan_snapshots
          (RDS.activeInstanceIds [{ db_id := "db-a", status := "available" }])
          (RDS.activeClusterIds [])
          [{ snap_id := "s-1", source_id := none }] []
    ∧ (RDS.snapshotCostItem
        (RDS.activeInstanceIds [{ db_id := "db-a", status := "available" }]
          ++ RDS.activeClusterIds []) "manual"
        { snap_id := "s-1", source_id := none }).is_orphan = true :=
  ⟨(c1_snapshot_orphan_amended
      { dbInstances := [{ db_id := "db-a", status := "available" }]
        dbClusters := []
        manualSnaps := [{ snap_id := "s-1", source_id := none }]
        automatedSnaps := []
        manualClusterSnaps := []
        automatedClusterSnaps := [] } "manual"
      { snap_id := "s-1", source_id := none }).1 (by decide),
   (c1_snapshot_orphan_amended
      { dbInstances := [{ db_id := "db-a", status := "available" }]
        dbClusters := []
        manualSnaps := [{ snap_id := "s-1", source_id := none }]
        automatedSnaps := []
        manualClusterSnaps := []
        automatedClusterSnaps := [] } "manual"
      { snap_id := "s-1", source_id := none }).2.1.mpr (by simp)⟩

/-- Claim C5 counterexample: a KMS region collection whose alias-listing
sub-scan raises AccessDenied while its key-listing sub-scan would succeed
with one key. scan_region propagates the error instead of returning the
findings of the successful sibling sub-scan, refuting the claim for the KMS
collector; the same env with a healthy alias sub-scan returns the finding of the
sibling. -/
theorem c5_counterexample :
    KMS.scan_region
        { aliasPages := Except.error "AccessDenied"
          keyPages := Except.ok [{ key_id := "k1", key_arn := "arn:k1" }] }
        "us-east-1"
      = Except.error "AccessDenied"
    ∧ KMS.scan_region
        { aliasPages := Except.ok []
          keyPages := Except.ok [{ key_id := "k1", key_arn := "arn:k1" }] }
        "us-east-1"
      = Except.ok [{ region := "us-east-1"
                     key_id := "k1"
                     alias_name := "No Alias"
                     key_arn := "arn:k1"
                     key_state := "UNKNOWN"
                     key_usage := "UNKNOWN"
                     key_spec := "UNKNOWN"
                     key_manager := "UNKNOWN"
                     origin := "UNKNOWN"
                     rotation_reason := "NOT_ENCRYPT_DECRYPT"
                     rotation_enabled := none }] :=
  ⟨rfl, rfl⟩

/-- Claim C5 (amended): in the EC2 collector an error raised inside one
sub-scan is logged and that sub-scan contributes exactly the findings
accumulated from the records it processed before the raise — an empty
contribution only when the query failed before yielding any record — while
the sibling sub-scans still run unchanged and nothing propagates out of
collect; in the KMS collector only the per-key metadata and rotation-status
queries are isolated, and a failure of the alias-listing or key-listing
sub-scan propagates out of scan_region (to be caught and dropped at the pool
boundary). -/
theorem c5_subscan_isolation_amended (env : EC2.Env) (region : String)
    (e : String) (xs1 : List EC2.InstanceRec) (xs2 xs3 : List EC2.VolumeRec)
    (xs4 : List EC2.SnapRec) (xs5 : List EC2.AddrRec)
    (kenv : KMS.RegionEnv) :
    (EC2.collect
        { env with instancesResp := { recs := xs1, err := some e } } region
      = EC2.collect
        { env with instancesResp := { recs := xs1, err := none } } region)
    ∧ (EC2.collect
        { env with volumesInUseResp := { recs := xs2, err := some e } } region
      = EC2.collect
        { env with volumesInUseResp := { recs := xs2, err := none } } region)
    ∧ (EC2.collect
        { env with volumesAvailResp := { recs := xs3, err := some e } } region
      = EC2.collect
        { env with volumesAvailResp := { recs := xs3, err := none } } region)
    ∧ (EC2.collect
        { env with snapshotsResp := { recs := xs4, err := some e } } region
      = EC2.collect
        { env with snapshotsResp := { recs := xs4, err := none } } region)
    ∧ (EC2.collect
        { env with addressesResp := { recs := xs5, err := some e } } region
      = EC2.collect
        { env with addressesResp := { recs := xs5, err := none } } region)
    ∧ EC2.guarded { recs := ([] : List EC2.InstanceRec), err := some e }
        (EC2.scanInstances region) = []
    ∧ EC2.guarded { recs := xs1, err := some e } (EC2.scanInstances region)
        = EC2.scanInstances region xs1
    ∧ (kenv.aliasPages = Except.error e →
        KMS.scan_region kenv region = Except.error e)
    ∧ (∀ al, kenv.aliasPages = Except.ok al → kenv.keyPages = Except.error e →
        KMS.scan_region kenv region = Except.error e) := by
  refine ⟨rfl, rfl, rfl, rfl, rfl, rfl, rfl, ?_, ?_⟩
  · intro h; simp [KMS.scan_region, h]
  · intro al hal hk; simp [KMS.scan_region, hal, hk]

/-- Witness for claim C5: an instance sub-scan that drained one record and
then raised contributes exactly that record, the whole collection being the
same as for an error-free drain of the same record; and a KMS region whose
alias listing raises propagates that error out of scan_region. -/
theorem c5_witness :
    EC2.collect
        { instancesResp :=
            { recs := [{ instance_id := "i-1", instance_type := "t3.micro",
                         state_name := "running" }],
              err := some "Throttling" } } "us-east-1"
      = EC2.collect
        { instancesResp :=
            { recs := [{ instance_id := "i-1", instance_type := "t3.micro",
                         state_name := "running" }],
              err := none } } "us-east-1"
    ∧ EC2.guarded
        { recs := [{ instance_id := "i-1", instance_type := "t3.micro",
                     state_name := "running" }],
          err := some "Throttling" } (EC2.scanInstances "us-east-1")
      = EC2.scanInstances "us-east-1"
          [{ instance_id := "i-1", instance_type := "t3.micro",
             state_name := "running" }]
    ∧ KMS.scan_region
        { aliasPages := Except.error "Throttling", keyPages := Except.ok [] }
        "us-east-1"
      = Except.error "Throttling" :=
  ⟨(c5_subscan_isolation_amended {} "us-east-1" "Throttling"
      [{ instance_id := "i-1", instance_type := "t3.micro",
         state_name := "running" }] [] [] [] []
      { aliasPages := Except.error "Throttling", keyPages := Except.ok [] }).1,
   (c5_subscan_isolation_amended {} "us-east-1" "Throttling"
      [{ instance_id := "i-1", instance_type := "t3.micro",
         state_name := "running" }] [] [] [] []
      { aliasPages := Except.error "Throttling", keyPages := Except.ok [] }
      ).2.2.2.2.2.2.1,
   (c5_subscan_isolation_amended {} "us-east-1" "Throttling"
      [{ instance_id := "i-1", instance_type := "t3.micro",
         state_name := "running" }] [] [] [] []
      { aliasPages := Except.error "Throttling", keyPages := Except.ok [] }
      ).2.2.2.2.2.2.2.1 rfl⟩

/-- Claim C9 counterexample: an instance with no tags at all is emitted with
name sentinel the string N/A, not the string unnamed, refuting the claimed
sentinel value. -/
theorem c9_counterexample :
    (EC2.scanInstances "us-east-1"
        [{ instance_id := "i-1", instance_type := "t3.micro",
           state_name := "running" }]).map (fun f => f.name) = ["N/A"]
    ∧ ("N/A" : String) ≠ "unnamed" := by decide

/-- Claim C9 (amended): a record with no Name tag is emitted with the name
sentinel N/A (not unnamed), and a record lacking a creation timestamp is
emitted with the timestamp sentinel N/A rather than the field being absent;
shown for the EC2 instance sub-scan and the NAT gateway sub-scan. -/
theorem c9_sentinel_amended (region : String) (now : ℚ)
    (i : EC2.InstanceRec) (g : NAT.NatGatewayRec)
    (hi : i.tags.find? (fun kv => kv.1 == "Name") = none)
    (hg : g.tags.find? (fun kv => kv.1 == "Name") = none) :
    (EC2.instanceFinding region i).name = "N/A"
    ∧ (NAT.scanNatGateway now region g).name = "N/A"
    ∧ (i.launch_time = none → (EC2.instanceFinding region i).create_time = "N/A")
    ∧ (g.create_time = none → (NAT.scanNatGateway now region g).create_time = "N/A") := by
  refine ⟨?_, ?_, ?_, ?_⟩
  · simp [EC2.instanceFinding, Radar.findNameTag, hi]
  · simp [NAT.scanNatGateway, Radar.findNameTag, hg]
  · intro h; simp [EC2.instanceFinding, EC2.fmtOptTime, h]
  · intro h; simp [NAT.scanNatGateway, EC2.fmtOptTime, h]

/-- Witness for claim C9: an untagged instance with no launch time and an
untagged NAT gateway with no creation time get the two N/A sentinels. -/
theorem c9_witness :
    (EC2.instanceFinding "us-east-1"
        { instance_id := "i-1", instance_type := "t3.micro",
          state_name := "running" }).name = "N/A"
    ∧ (EC2.instanceFinding "us-east-1"
        { instance_id := "i-1", instance_type := "t3.micro",
          state_name := "running" }).create_time = "N/A"
    ∧ (NAT.scanNatGateway 0 "us-east-1" { nat_id := "nat-1" }).name = "N/A"
    ∧ (NAT.scanNatGateway 0 "us-east-1" { nat_id := "nat-1" }).create_time
        = "N/A" :=
  ⟨(c9_sentinel_amended "us-east-1" 0
      { instance_id := "i-1", instance_type := "t3.micro",
        state_name := "running" } { nat_id := "nat-1" } rfl rfl).1,
   (c9_sentinel_amended "us-east-1" 0
      { instance_id := "i-1", instance_type := "t3.micro",
        state_name := "running" } { nat_id := "nat-1" } rfl rfl).2.2.1 rfl,
   (c9_sentinel_amended "us-east-1" 0
      { instance_id := "i-1", instance_type := "t3.micro",
        state_name := "running" } { nat_id := "nat-1" } rfl rfl).2.1,
   (c9_sentinel_amended "us-east-1" 0
      { instance_id := "i-1", instance_type := "t3.micro",
        state_name := "running" } { nat_id := "nat-1" } rfl rfl).2.2.2 rfl⟩

/-- Claim C2 counterexample: a NAT gateway created 48 hours ago whose two
metrics total 0.999 GB (one datapoint of 999/1000 of a GB in bytes; the other
metric query fails and contributes zero). The claim computes the traffic total
as the datapoint sum converted bytes to GB, which is below 1.0, and so demands
the zombie flag; the code first rounds the total to two decimals, getting
exactly 1.00, and does not flag the gateway. -/
theorem c2_counterexample :
    (NAT.scanNatGateway 172800 "us-east-1"
        { nat_id := "nat-1", create_time := some 0,
          bytesInResp := Except.ok [999 / 1000 * 1073741824],
          bytesOutResp := Except.error "MetricUnavailable" }).meta_is_zombie
      = false
    ∧ ((172800 : ℚ) - 0) / 3600 > 24
    ∧ NAT.specTrafficGB (Except.ok [999 / 1000 * 1073741824])
        (Except.error "MetricUnavailable") < 1 := by
  have h1 : NAT.specTrafficGB (Except.ok [999 / 1000 * 1073741824])
      (Except.error "MetricUnavailable") = 999 / 1000 := by
    norm_num [NAT.specTrafficGB, NAT.metricContribution, NAT.bytesPerGB]
  have h2 : NAT.roundHalfEven2 (999 / 1000) = 1 := by
    have hfl : ⌊(100 : ℚ) * (999 / 1000)⌋ = 99 := by
      rw [Int.floor_eq_iff]
      norm_num
    simp only [NAT.roundHalfEven2, hfl]
    norm_num
  have h3 : NAT.get_traffic_metrics (Except.ok [999 / 1000 * 1073741824])
      (Except.error "MetricUnavailable") = 1 := by
    rw [show NAT.get_traffic_metrics (Except.ok [999 / 1000 * 1073741824])
        (Except.error "MetricUnavailable")
      = NAT.roundHalfEven2 (NAT.specTrafficGB
          (Except.ok [999 / 1000 * 1073741824])
          (Except.error "MetricUnavailable")) from rfl, h1, h2]
  refine ⟨?_, by norm_num, by rw [h1]; norm_num⟩
  simp only [NAT.scanNatGateway, h3]
  norm_num

/-- Claim C2 (amended): for a NAT gateway record carrying a creation
timestamp, the zombie flag is set exactly when hours since creation exceed 24
and the traffic value compared is below 1.0 GB, where that value is the sum of
the daily Sum datapoints of the two metrics, a failed metric query
contributing zero, converted bytes to GB and then rounded to two decimal
places by Python round — so an unrounded total in the interval from 0.995 GB
up to 1.0 GB rounds to 1.00 and is not flagged. -/
theorem c2_nat_zombie_amended (now : ℚ) (region : String)
    (g : NAT.NatGatewayRec) (t : ℚ) (ht : g.create_time = some t)
    (e : String) (dps : List ℚ) :
    ((NAT.scanNatGateway now region g).meta_is_zombie = true ↔
      ((now - t) / 3600 > 24
        ∧ NAT.get_traffic_metrics g.bytesInResp g.bytesOutResp < 1))
    ∧ (NAT.scanNatGateway now region g).traffic_gb
        = NAT.roundHalfEven2 (NAT.specTrafficGB g.bytesInResp g.bytesOutResp)
    ∧ NAT.metricContribution (Except.error e) = 0
    ∧ NAT.metricContribution (Except.ok dps) = dps.sum := by
  refine ⟨?_, rfl, rfl, rfl⟩
  simp [NAT.scanNatGateway, ht, decide_eq_true_iff]

/-- Witness for claim C2: a gateway created 48 hours before the scan with
zero traffic on both metrics is flagged zombie. -/
theorem c2_witness :
    (NAT.scanNatGateway 172800 "us-east-1"
        { nat_id := "nat-0", create_time := some 0 }).meta_is_zombie = true :=
  ((c2_nat_zombie_amended 172800 "us-east-1"
      { nat_id := "nat-0", create_time := some 0 } 0 rfl "e" []).1).mpr
    ⟨by norm_num,
     by norm_num [NAT.get_traffic_metrics, NAT.metricContribution,
       NAT.bytesPerGB, NAT.roundHalfEven2, Int.floor_zero]⟩

/-- Claim C6: a key is classified not applicable for rotation exactly when
its manager is AWS, or its usage is not ENCRYPT_DECRYPT, or its origin is
EXTERNAL, or its key spec starts with RSA underscore, ECC underscore or HMAC
underscore; the four tests fire in that precedence order with reason codes
AWS_MANAGED, NOT_ENCRYPT_DECRYPT, IMPORTED_KEY_MATERIAL, ASYMMETRIC_OR_HMAC;
a not-applicable key never has its rotation status queried and carries the
reason code, while an applicable key is queried and recorded as ENABLED,
DISABLED or UNKNOWN_OR_NO_PERMISSION; an AWS-managed key is always recorded
AWS_MANAGED and never queried. -/
theorem c6_kms_rotation_applicability (reg : String)
    (am : List (String × String)) (k : KMS.KeyRec) (m : KMS.KeyMeta) :
    ((KMS.rotation_applicability m).1 = false ↔
      (m.key_manager = "AWS" ∨ m.key_usage ≠ "ENCRYPT_DECRYPT"
        ∨ m.origin = "EXTERNAL"
        ∨ m.key_spec.startsWith "RSA_" = true
        ∨ m.key_spec.startsWith "ECC_" = true
        ∨ m.key_spec.startsWith "HMAC_" = true))
    ∧ (m.key_manager = "AWS" →
        KMS.rotation_applicability m = (false, "AWS_MANAGED"))
    ∧ (m.key_manager ≠ "AWS" → m.key_usage ≠ "ENCRYPT_DECRYPT" →
        KMS.rotation_applicability m = (false, "NOT_ENCRYPT_DECRYPT"))
    ∧ (m.key_manager ≠ "AWS" → m.key_usage = "ENCRYPT_DECRYPT" →
        m.origin = "EXTERNAL" →
        KMS.rotation_applicability m = (false, "IMPORTED_KEY_MATERIAL"))
    ∧ (m.key_manager ≠ "AWS" → m.key_usage = "ENCRYPT_DECRYPT" →
        m.origin ≠ "EXTERNAL" →
        (m.key_spec.startsWith "RSA_" = true
          ∨ m.key_spec.startsWith "ECC_" = true
          ∨ m.key_spec.startsWith "HMAC_" = true) →
        KMS.rotation_applicability m = (false, "ASYMMETRIC_OR_HMAC"))
    ∧ (k.metaResp = Except.ok m → (KMS.rotation_applicability m).1 = false →
        (KMS.processKey reg am k).2 = false
          ∧ (KMS.processKey reg am k).1.rotation_reason
              = (KMS.rotation_applicability m).2
          ∧ (KMS.processKey reg am k).1.rotation_enabled = none)
    ∧ (k.metaResp = Except.ok m → (KMS.rotation_applicability m).1 = true →
        (KMS.processKey reg am k).2 = true
          ∧ (KMS.processKey reg am k).1.rotation_enabled
              = KMS.get_rotation_status k.rotResp
          ∧ (KMS.processKey reg am k).1.rotation_reason
              = (match KMS.get_rotation_status k.rotResp with
                 | some true => "ENABLED"
                 | some false => "DISABLED"
                 | none => "UNKNOWN_OR_NO_PERMISSION"))
    ∧ (k.metaResp = Except.ok m → m.key_manager = "AWS" →
        (KMS.processKey reg am k).2 = false
          ∧ (KMS.processKey reg am k).1.rotation_reason = "AWS_MANAGED") := by
  have hAws : m.key_manager = "AWS" →
      KMS.rotation_applicability m = (false, "AWS_MANAGED") := by
    intro hm
    simp [KMS.rotation_applicability, hm]
  have hNotApp : (KMS.rotation_applicability m).1 = false →
      k.metaResp = Except.ok m →
      (KMS.processKey reg am k).2 = false
        ∧ (KMS.processKey reg am k).1.rotation_reason
            = (KMS.rotation_applicability m).2
        ∧ (KMS.processKey reg am k).1.rotation_enabled = none := by
    intro hpa hmr
    simp [KMS.processKey, KMS.describe_key_meta, hmr, hpa]
  refine ⟨?_, hAws, ?_, ?_, ?_, fun hmr hpa => hNotApp hpa hmr, ?_, ?_⟩
  · simp only [KMS.rotation_applicability]
    split_ifs with h1 h2 h3 h4 <;>
      simp_all [beq_iff_eq, bne_iff_ne, Bool.or_eq_true, or_assoc]
  · intro hm hu
    simp [KMS.rotation_applicability, beq_iff_eq, bne_iff_ne, hm, hu]
  · intro hm hu ho
    simp [KMS.rotation_applicability, beq_iff_eq, bne_iff_ne, hm, hu, ho]
  · intro hm hu ho hs
    simp [KMS.rotation_applicability, beq_iff_eq, bne_iff_ne, hm, hu, ho]
    rcases hs with h | h | h <;> simp [h]
  · intro hmr hpa
    cases hr : KMS.get_rotation_status k.rotResp with
    | none =>
      simp [KMS.processKey, KMS.describe_key_meta, hmr, hpa, hr]
    | some b =>
      cases b <;> simp [KMS.processKey, KMS.describe_key_meta, hmr, hpa, hr]
  · intro hmr hm
    have h := hNotApp (by simp [hAws hm]) hmr
    exact ⟨h.1, by rw [h.2.1, hAws hm]⟩

/-- Witness for claim C6: a key whose metadata says manager AWS is processed
without a rotation-status query and recorded with reason AWS_MANAGED. -/
theorem c6_witness :
    (KMS.processKey "us-east-1" []
        { key_id := "k1", key_arn := "arn:k1",
          metaResp := Except.ok { key_manager := "AWS" } }).2 = false
    ∧ (KMS.processKey "us-east-1" []
        { key_id := "k1", key_arn := "arn:k1",
          metaResp := Except.ok { key_manager := "AWS" } }).1.rotation_reason
        = "AWS_MANAGED" :=
  (c6_kms_rotation_applicability "us-east-1" []
      { key_id := "k1", key_arn := "arn:k1",
        metaResp := Except.ok { key_manager := "AWS" } }
      { key_manager := "AWS" }).2.2.2.2.2.2.2 rfl rfl

/-- Keys of the per-type grouping are stable under permutation of the items:
permuted inputs have permuted key multisets, and sorting them with the same
total order yields the same list. -/
theorem sortedDedupKeys_perm {l₁ l₂ : List String} (h : l₁.Perm l₂) :
    List.insertionSort (· ≤ ·) l₁.dedup = List.insertionSort (· ≤ ·) l₂.dedup :=
  List.eq_of_perm_of_sorted
    ((List.perm_insertionSort _ _).trans
      (h.dedup.trans (List.perm_insertionSort _ _).symm))
    (List.sorted_insertionSort _ _) (List.sorted_insertionSort _ _)

/-- One summary row is permutation-invariant: its count and sums range over
filters of the item list, and length and sum are invariant under Perm. -/
theorem summaryRow_perm {l₁ l₂ : List RDS.CostItem} (h : l₁.Perm l₂)
    (t : String) : RDS.summaryRow l₁ t = RDS.summaryRow l₂ t := by
  have hg := h.filter (fun i => i.resource_type == t)
  have ho := hg.filter (fun i => i.is_orphan)
  simp only [RDS.summaryRow]
  rw [hg.length_eq, (hg.map (fun i => i.size_gb)).sum_eq, ho.length_eq,
    (ho.map (fun i => i.size_gb)).sum_eq]

/-- Claim C7: the RDS per-type summary and the EC2 per-service summary are
identical for any permutation of their input findings (so region completion
order does not affect them, and the same frozen input always reproduces the
same tables); the grouping keys of the RDS summary appear in sorted order;
and the aggregates of every RDS row are the count and size sums over exactly the
findings of its type (with the orphan-restricted subtotals over the orphan
ones). -/
theorem c7_aggregation_deterministic
    (l₁ l₂ : List RDS.CostItem) (hl : l₁.Perm l₂)
    (f₁ f₂ : List EC2.ResourceInfo) (hf : f₁.Perm f₂) :
    RDS.generate_summary_report l₁ = RDS.generate_summary_report l₂
    ∧ EC2.displaySummaryRows f₁ = EC2.displaySummaryRows f₂
    ∧ List.Sorted (· ≤ ·)
        ((RDS.generate_summary_report l₁).map (fun r => r.resource_type))
    ∧ (∀ t : String,
        (RDS.summaryRow l₁ t).count
            = (l₁.filter (fun i => i.resource_type == t)).length
          ∧ (RDS.summaryRow l₁ t).total_size
            = ((l₁.filter (fun i => i.resource_type == t)).map
                (fun i => i.size_gb)).sum
          ∧ (RDS.summaryRow l₁ t).orphan_count
            = ((l₁.filter (fun i => i.resource_type == t)).filter
                (fun i => i.is_orphan)).length
          ∧ (RDS.summaryRow l₁ t).orphan_size
            = (((l₁.filter (fun i => i.resource_type == t)).filter
                (fun i => i.is_orphan)).map (fun i => i.size_gb)).sum) := by
  refine ⟨?_, ?_, ?_, fun t => ⟨rfl, rfl, rfl, rfl⟩⟩
  · have hkeys : RDS.typeKeysSorted l₁ = RDS.typeKeysSorted l₂ :=
      sortedDedupKeys_perm (hl.map (fun i => i.resource_type))
    simp only [RDS.generate_summary_report, hkeys]
    exact List.map_congr_left (fun t _ => summaryRow_perm hl t)
  · have hkeys : List.insertionSort (· ≤ ·) (f₁.map (fun f => f.service)).dedup
        = List.insertionSort (· ≤ ·) (f₂.map (fun f => f.service)).dedup :=
      sortedDedupKeys_perm (hf.map (fun f => f.service))
    simp only [EC2.displaySummaryRows, hkeys]
    refine List.map_congr_left (fun s _ => ?_)
    rw [(hf.filter (fun f => f.service == s)).length_eq]
  · have hcomp : ((fun r : RDS.TypeSummaryRow => r.resource_type)
        ∘ RDS.summaryRow l₁) = id := rfl
    have hmap : (RDS.generate_summary_report l₁).map (fun r => r.resource_type)
        = RDS.typeKeysSorted l₁ := by
      simp only [RDS.generate_summary_report, List.map_map, hcomp, List.map_id]
    rw [hmap]
    exact List.sorted_insertionSort _ _

/-- Witness for claim C7: two two-item inputs that are permutations of each
other (and likewise two one-finding lists) produce identical summary
tables. -/
theorem c7_witness :
    RDS.generate_summary_report
        [{ resource_type := "DB Instance", resource_id := "a",
           status := "available", size_gb := 20 },
         { resource_type := "Snapshot (manual)", resource_id := "s",
           status := "available", size_gb := 5, is_orphan := true }]
      = RDS.generate_summary_report
        [{ resource_type := "Snapshot (manual)", resource_id := "s",
           status := "available", size_gb := 5, is_orphan := true },
         { resource_type := "DB Instance", resource_id := "a",
           status := "available", size_gb := 20 }] :=
  (c7_aggregation_deterministic
      [{ resource_type := "DB Instance", resource_id := "a",
         status := "available", size_gb := 20 },
       { resource_type := "Snapshot (manual)", resource_id := "s",
         status := "available", size_gb := 5, is_orphan := true }]
      [{ resource_type := "Snapshot (manual)", resource_id := "s",
         status := "available", size_gb := 5, is_orphan := true },
       { resource_type := "DB Instance", resource_id := "a",
         status := "available", size_gb := 20 }]
      (List.Perm.swap _ _ _) [] [] (List.Perm.refl _)).1

/-- Membership in a guarded sub-scan is membership in the findings built from
the records the query delivered before any raise. -/
theorem mem_guarded_iff {α : Type} (resp : EC2.SubScanResp α)
    (f : List α → List EC2.ResourceInfo) (g : EC2.ResourceInfo) :
    g ∈ EC2.guarded resp f ↔ g ∈ f resp.recs := Iff.rfl

/-- The instances sub-scan only emits findings labelled EC2. -/
theorem service_of_mem_scanInstances {region : String}
    {xs : List EC2.InstanceRec} {g : EC2.ResourceInfo}
    (h : g ∈ EC2.scanInstances region xs) : g.service = "EC2" := by
  simp only [EC2.scanInstances, List.mem_map] at h
  obtain ⟨x, hx, rfl⟩ := h
  rfl

/-- The in-use-volume sub-scan only emits findings labelled EBS Volume. -/
theorem service_of_mem_scanVolumes {region : String}
    {xs : List EC2.VolumeRec} {g : EC2.ResourceInfo}
    (h : g ∈ EC2.scanVolumes region xs) : g.service = "EBS Volume" := by
  simp only [EC2.scanVolumes, List.mem_map] at h
  obtain ⟨x, hx, rfl⟩ := h
  rfl

/-- The orphan-volume sub-scan labels every finding Orphan Volume with the
fixed status string. -/
theorem labels_of_mem_scanOrphanVolumes {region : String}
    {xs : List EC2.VolumeRec} {g : EC2.ResourceInfo}
    (h : g ∈ EC2.scanOrphanVolumes region xs) :
    g.service = "Orphan Volume" ∧ g.status = "Available (Not Attached)" := by
  simp only [EC2.scanOrphanVolumes, List.mem_map] at h
  obtain ⟨x, hx, rfl⟩ := h
  exact ⟨rfl, rfl⟩

/-- The snapshot sub-scan only emits findings labelled Snapshot. -/
theorem service_of_mem_scanSnapshots {region : String}
    {xs : List EC2.SnapRec} {g : EC2.ResourceInfo}
    (h : g ∈ EC2.scanSnapshots region xs) : g.service = "Snapshot" := by
  simp only [EC2.scanSnapshots, List.mem_map] at h
  obtain ⟨x, hx, rfl⟩ := h
  rfl

/-- The address sub-scan only emits findings labelled Elastic IP. -/
theorem service_of_mem_scanEips {region : String}
    {xs : List EC2.AddrRec} {g : EC2.ResourceInfo}
    (h : g ∈ EC2.scanEips region xs) : g.service = "Elastic IP" := by
  simp only [EC2.scanEips, List.mem_map] at h
  obtain ⟨x, hx, rfl⟩ := h
  rfl


/-- Filtering a guarded non-snapshot sub-scan for the Snapshot service leaves
nothing, and the guarded snapshot sub-scan passes through unchanged. -/
theorem filter_snapshot_components (region : String)
    (ir : EC2.SubScanResp EC2.InstanceRec)
    (vr var : EC2.SubScanResp EC2.VolumeRec)
    (sr : EC2.SubScanResp EC2.SnapRec)
    (ar : EC2.SubScanResp EC2.AddrRec) :
    (EC2.guarded ir (EC2.scanInstances region)).filter
        (fun g => g.service == "Snapshot") = []
    ∧ (EC2.guarded vr (EC2.scanVolumes region)).filter
        (fun g => g.service == "Snapshot") = []
    ∧ (EC2.guarded var (EC2.scanOrphanVolumes region)).filter
        (fun g => g.service == "Snapshot") = []
    ∧ (EC2.guarded ar (EC2.scanEips region)).filter
        (fun g => g.service == "Snapshot") = []
    ∧ (EC2.guarded sr (EC2.scanSnapshots region)).filter
        (fun g => g.service == "Snapshot")
      = EC2.guarded sr (EC2.scanSnapshots region) := by
  refine ⟨?_, ?_, ?_, ?_, ?_⟩
  · rw [List.filter_eq_nil_iff]
    intro g hg
    simp [service_of_mem_scanInstances ((mem_guarded_iff ir _ g).1 hg)]
  · rw [List.filter_eq_nil_iff]
    intro g hg
    simp [service_of_mem_scanVolumes ((mem_guarded_iff vr _ g).1 hg)]
  · rw [List.filter_eq_nil_iff]
    intro g hg
    simp [(labels_of_mem_scanOrphanVolumes ((mem_guarded_iff var _ g).1 hg)).1]
  · rw [List.filter_eq_nil_iff]
    intro g hg
    simp [service_of_mem_scanEips ((mem_guarded_iff ar _ g).1 hg)]
  · rw [List.filter_eq_self]
    intro g hg
    simp [service_of_mem_scanSnapshots ((mem_guarded_iff sr _ g).1 hg)]

/-- Claim C10: EC2-family findings carry no orphan flag — the dict emitted
for every finding has exactly the eight ResourceInfo keys, none of them an
orphan field; the snapshot sub-scan consults no active-resource index, so the
snapshot findings of a collection are unchanged under any change to the
instance, volume and address responses; and within the EC2 family the only
orphan marking is the dedicated available-volume sub-scan, whose findings —
and only whose findings — are labelled service Orphan Volume, always with
status Available (Not Attached). -/
theorem c10_ec2_no_orphan_classification
    (r : EC2.ResourceInfo) (env env' : EC2.Env) (region : String)
    (hsnap : env.snapshotsResp = env'.snapshotsResp)
    (hclient : env.clientOk = env'.clientOk)
    (xs : List EC2.VolumeRec) (f : EC2.ResourceInfo) :
    (r.to_dict.map (fun kv => kv.1))
      = ["service", "resource_id", "name", "region", "size", "create_time",
         "status", "meta"]
    ∧ ((EC2.collect env region).filter (fun g => g.service == "Snapshot")
        = (EC2.collect env' region).filter (fun g => g.service == "Snapshot"))
    ∧ (f ∈ EC2.scanOrphanVolumes region xs →
        f.service = "Orphan Volume" ∧ f.status = "Available (Not Attached)")
    ∧ (f ∈ EC2.collect env region → f.service = "Orphan Volume" →
        f.status = "Available (Not Attached)") := by
  refine ⟨rfl, ?_, labels_of_mem_scanOrphanVolumes, ?_⟩
  · obtain ⟨c, ir, vr, var, sr, ar⟩ := env
    obtain ⟨c2, ir2, vr2, var2, sr2, ar2⟩ := env'
    dsimp only at hsnap hclient
    subst hsnap hclient
    cases c with
    | false => rfl
    | true =>
      simp only [EC2.collect, if_pos, List.filter_append]
      rw [(filter_snapshot_components region ir vr var sr ar).1,
        (filter_snapshot_components region ir vr var sr ar).2.1,
        (filter_snapshot_components region ir vr var sr ar).2.2.1,
        (filter_snapshot_components region ir vr var sr ar).2.2.2.1,
        (filter_snapshot_components region ir2 vr2 var2 sr ar2).1,
        (filter_snapshot_components region ir2 vr2 var2 sr ar2).2.1,
        (filter_snapshot_components region ir2 vr2 var2 sr ar2).2.2.1,
        (filter_snapshot_components region ir2 vr2 var2 sr ar2).2.2.2.1]
  · intro hmem hserv
    unfold EC2.collect at hmem
    by_cases hc : env.clientOk
    · rw [if_pos hc] at hmem
      rcases List.mem_append.1 hmem with hmem | hA
      rcases List.mem_append.1 hmem with hmem | hS
      rcases List.mem_append.1 hmem with hmem | hV2
      rcases List.mem_append.1 hmem with hI | hV1
      · rw [service_of_mem_scanInstances
          ((mem_guarded_iff env.instancesResp _ f).1 hI)] at hserv
        exact absurd hserv (by decide)
      · rw [service_of_mem_scanVolumes
          ((mem_guarded_iff env.volumesInUseResp _ f).1 hV1)] at hserv
        exact absurd hserv (by decide)
      · exact (labels_of_mem_scanOrphanVolumes
          ((mem_guarded_iff env.volumesAvailResp _ f).1 hV2)).2
      · rw [service_of_mem_scanSnapshots
          ((mem_guarded_iff env.snapshotsResp _ f).1 hS)] at hserv
        exact absurd hserv (by decide)
      · rw [service_of_mem_scanEips
          ((mem_guarded_iff env.addressesResp _ f).1 hA)] at hserv
        exact absurd hserv (by decide)
    · rw [if_neg hc] at hmem
      exact absurd hmem (List.not_mem_nil f)

/-- Witness for claim C10: the dict of a concrete finding has exactly the eight
keys, and the orphan-volume finding for one available 8 GB volume carries the
fixed Orphan Volume labels. -/
theorem c10_witness :
    (({ service := "Snapshot", resource_id := "snap-1", name := "N/A",
        region := "us-east-1", size := "8 GB", create_time := "N/A",
        status := "completed", meta := [] } : EC2.ResourceInfo).to_dict.map
          (fun kv => kv.1))
      = ["service", "resource_id", "name", "region", "size", "create_time",
         "status", "meta"]
    ∧ (EC2.orphanVolumeFinding "us-east-1"
          { volume_id := "vol-1", size := 8, volume_type := "gp3",
            state := "available" }).service = "Orphan Volume"
    ∧ (EC2.orphanVolumeFinding "us-east-1"
          { volume_id := "vol-1", size := 8, volume_type := "gp3",
            state := "available" }).status = "Available (Not Attached)" :=
  ⟨(c10_ec2_no_orphan_classification
      { service := "Snapshot", resource_id := "snap-1", name := "N/A",
        region := "us-east-1", size := "8 GB", create_time := "N/A",
        status := "completed", meta := [] } {} {} "us-east-1" rfl rfl
      [{ volume_id := "vol-1", size := 8, volume_type := "gp3",
         state := "available" }]
      (EC2.orphanVolumeFinding "us-east-1"
        { volume_id := "vol-1", size := 8, volume_type := "gp3",
          state := "available" })).1,
   ((c10_ec2_no_orphan_classification
      { service := "Snapshot", resource_id := "snap-1", name := "N/A",
        region := "us-east-1", size := "8 GB", create_time := "N/A",
        status := "completed", meta := [] } {} {} "us-east-1" rfl rfl
      [{ volume_id := "vol-1", size := 8, volume_type := "gp3",
         state := "available" }]
      (EC2.orphanVolumeFinding "us-east-1"
        { volume_id := "vol-1", size := 8, volume_type := "gp3",
          state := "available" })).2.2.1 (by simp [EC2.scanOrphanVolumes])).1,
   ((c10_ec2_no_orphan_classification
      { service := "Snapshot", resource_id := "snap-1", name := "N/A",
        region := "us-east-1", size := "8 GB", create_time := "N/A",
        status := "completed", meta := [] } {} {} "us-east-1" rfl rfl
      [{ volume_id := "vol-1", size := 8, volume_type := "gp3",
         state := "available" }]
      (EC2.orphanVolumeFinding "us-east-1"
        { volume_id := "vol-1", size := 8, volume_type := "gp3",
          state := "available" })).2.2.1 (by simp [EC2.scanOrphanVolumes])).2⟩
